import Mathlib

/-!
Verification development for the subscription lifecycle core of the dxFeed
demo client (src/main.cpp).

The program wraps a transport connection and, per symbol, a
Subscription object that performs a three-step setup protocol
(dxf_create_subscription, dxf_attach_event_listener, dxf_add_symbol),
and a three-step teardown protocol in CloseImpl (dxf_remove_symbol,
dxf_detach_event_listener, dxf_close_subscription).  The transport facade
calls are external; we model each call's outcome as a boolean supplied by
an environment record, and record the sequence of observable events
(facade calls and lock acquire/release) produced by each operation.

Machine state is a structure mirroring the fields of the C++
Subscription template: handle (nullable pointer, modelled as Option),
errorCode (ERRORCODE with DXF_SUCCESS / DXF_FAILURE), plus the identity
template parameter, the non-owning connection reference and the symbol.
Two specification-level ghost fields (setupOk, closed) record lifecycle
facts needed to state the spec's lifecycle-state claims; they never
influence the computed code fields.
-/

/-- Result code of transport facade calls: ERRORCODE with values
DXF_SUCCESS and DXF_FAILURE. -/
inductive ERRORCODE where
  | success
  | failure
deriving DecidableEq

/-- An opaque transport subscription handle value (a non-null pointer is
modelled as some value, the null pointer as none at the use site). -/
abbrev Handle := Nat

/-- The Connection facade primitives invoked by the subscription core,
with the arguments the claims talk about (listener pointer, user-context
token, symbol). -/
inductive FacadeCall where
  | createSubscription
  | attachListener (listener : Nat) (ctx : Nat)
  | addSymbol (symbol : String)
  | removeSymbol (symbol : String)
  | detachListener (listener : Nat)
  | closeSubscriptionHandle
deriving DecidableEq

/-- Observable events of a run: facade calls plus acquisition and release
of the per-subscription mutex (std::lock_guard in Subscription::Close). -/
inductive Event where
  | lockAcquire
  | lockRelease
  | facade (c : FacadeCall)
deriving DecidableEq

/-- The facade calls appearing in an event trace, in order. -/
def facadeCalls (tr : List Event) : List FacadeCall :=
  tr.filterMap (fun e =>
    match e with
    | .facade c => some c
    | _ => none)

/-- State of one Subscription<id> object.  id is the template parameter;
connection, symbol, handle and errorCode are the C++ data members.
setupOk and closed are specification ghost fields: setupOk records that
all three setup steps succeeded, closed records that the teardown body
reached its final step and nulled the handle.  The ghost fields are
written only where the corresponding code-level transition happens and
are read by no operation. -/
structure Subscription where
  id : Nat
  connection : Nat
  symbol : String
  handle : Option Handle
  errorCode : ERRORCODE
  setupOk : Bool
  closed : Bool
deriving DecidableEq

/-- Subscription<id>::getListener returns a function-local static
function pointer, initialised once per template instantiation id: one
fixed pointer per id, distinct instantiations having distinct static
lambdas.  We model the pointer value by the instantiation id itself,
which captures exactly that the pointer is constant per id and distinct
across ids. -/
def getListener (id : Nat) : Nat := id

/-- Outcomes the transport supplies to the three setup steps of one
constructor run. -/
structure SetupEnv where
  createOk : Bool
  attachOk : Bool
  addOk : Bool
deriving DecidableEq

/-- Outcomes the transport supplies to the three teardown steps of one
CloseImpl run. -/
structure CloseEnv where
  removeOk : Bool
  detachOk : Bool
  closeOk : Bool
deriving DecidableEq

/-- The Subscription constructor (setup protocol), returning the
constructed state and the trace of facade calls it performed.
Mirrors src/main.cpp lines 169-197: errorCode := result of
dxf_create_subscription (on failure the handle member stays null and the
constructor returns); then errorCode := result of
dxf_attach_event_listener(handle, getListener(), (void*)id) (on failure
return); then errorCode := result of dxf_add_symbol(handle, symbol).
fresh is the handle value the transport writes through the out-parameter
on success. -/
def Subscription.create (id connection : Nat) (symbol : String) (env : SetupEnv)
    (fresh : Handle) : Subscription × List Event :=
  if env.createOk = false then
    ({ id := id, connection := connection, symbol := symbol, handle := none,
       errorCode := .failure, setupOk := false, closed := false },
     [.facade .createSubscription])
  else if env.attachOk = false then
    ({ id := id, connection := connection, symbol := symbol, handle := some fresh,
       errorCode := .failure, setupOk := false, closed := false },
     [.facade .createSubscription, .facade (.attachListener (getListener id) id)])
  else
    ({ id := id, connection := connection, symbol := symbol, handle := some fresh,
       errorCode := if env.addOk then .success else .failure,
       setupOk := env.addOk, closed := false },
     [.facade .createSubscription, .facade (.attachListener (getListener id) id),
      .facade (.addSymbol symbol)])

/-- Subscription::CloseImpl (src/main.cpp lines 223-255).  Guarded by
(handle && errorCode == DXF_SUCCESS).  Step 1: errorCode :=
dxf_remove_symbol(handle, symbol); on failure return (handle kept).
Step 2: auto result := dxf_detach_event_listener(handle, getListener());
on failure return — note the source stores this result in a LOCAL
variable, so errorCode is left untouched.  Step 3: errorCode :=
dxf_close_subscription(handle); then handle := nullptr unconditionally,
whether or not step 3 succeeded. -/
def Subscription.CloseImpl (s : Subscription) (env : CloseEnv) :
    Subscription × List Event :=
  if s.handle ≠ none ∧ s.errorCode = .success then
    if env.removeOk = false then
      ({ s with errorCode := .failure }, [.facade (.removeSymbol s.symbol)])
    else if env.detachOk = false then
      (s, [.facade (.removeSymbol s.symbol),
           .facade (.detachListener (getListener s.id))])
    else
      ({ s with errorCode := if env.closeOk then .success else .failure,
                handle := none, closed := true },
       [.facade (.removeSymbol s.symbol),
        .facade (.detachListener (getListener s.id)),
        .facade .closeSubscriptionHandle])
  else
    (s, [])

/-- Subscription::Close (src/main.cpp lines 257-260): takes the
per-subscription mutex, then runs CloseImpl. -/
def Subscription.Close (s : Subscription) (env : CloseEnv) :
    Subscription × List Event :=
  ((s.CloseImpl env).1, .lockAcquire :: ((s.CloseImpl env).2 ++ [.lockRelease]))

/-- The Subscription destructor (src/main.cpp lines 262-264): it calls
CloseImpl() directly, without acquiring the per-subscription mutex. -/
def Subscription.destruct (s : Subscription) (env : CloseEnv) :
    Subscription × List Event :=
  s.CloseImpl env

/-- The event listener body (src/main.cpp lines 200-218) only formats and
prints the quote under the global ioMutex; it reads no subscription
member and performs no facade call, so dispatch leaves the subscription
state unchanged. -/
def Subscription.onEvent (s : Subscription) (_eventType : Nat) : Subscription :=
  s

/-- A sequence of N explicit Close() calls on one subscription, each with
its own transport outcomes, returning final state and concatenated
trace. -/
def closeSeq (s : Subscription) (envs : List CloseEnv) :
    Subscription × List Event :=
  match envs with
  | [] => (s, [])
  | e :: rest =>
    ((closeSeq (s.Close e).1 rest).1,
     (s.Close e).2 ++ (closeSeq (s.Close e).1 rest).2)

/-- The registry (std::vector of owning pointers in main) being released:
vector destruction destroys the entries in order, each destruction
invoking the Subscription destructor, i.e. the unlocked teardown body.
Entry i receives the transport outcomes envOf i. -/
def closeAll : List Subscription → (Nat → CloseEnv) → List Subscription × List Event
  | [], _ => ([], [])
  | s :: rest, envOf =>
    (((s.destruct (envOf 0)).1 :: (closeAll rest (fun n => envOf (n + 1))).1),
     (s.destruct (envOf 0)).2 ++ (closeAll rest (fun n => envOf (n + 1))).2)

/-- Closing one registry entry by position (subs[i]->Close() in main):
the entry at index i is replaced by the result of its locked Close, the
others are untouched. -/
def closeAt (subs : List Subscription) (i : Nat) (env : CloseEnv) :
    List Subscription × List Event :=
  match subs[i]? with
  | some s => (subs.set i (s.Close env).1, (s.Close env).2)
  | none => (subs, [])

/-- dx_ec_success, the "no stored error" code of the error subsystem. -/
def dx_ec_success : Int := 0

/-- The three observable outcomes of processLastError. -/
inductive LastErrorOutcome where
  | noError
  | storedError (code : Int) (description : String)
  | subsystemUnavailable
deriving DecidableEq

/-- processLastError (src/main.cpp lines 122-144): calls
dxf_get_last_error; if that call succeeds and the stored code is
dx_ec_success it prints the "No error information is stored" message;
if it succeeds with a different code it prints the code and description;
if the call itself fails it prints the "error subsystem failed to
initialize" message.  queryOk models the DXF_SUCCESS/DXF_FAILURE result
of dxf_get_last_error, storedCode and storedDescription the values it
writes through its out-parameters on success. -/
def processLastError (queryOk : Bool) (storedCode : Int)
    (storedDescription : String) : LastErrorOutcome :=
  if queryOk then
    if storedCode = dx_ec_success then .noError
    else .storedError storedCode storedDescription
  else .subsystemUnavailable

/-- Enumerator values of dxf_order_scope_t, numbered in declaration
order of the C enum. -/
def dxf_osc_composite : Int := 0

def dxf_osc_regional : Int := 1

def dxf_osc_aggregate : Int := 2

def dxf_osc_order : Int := 3

/-- orderScopeToString (src/main.cpp lines 92-105): a switch over the
four enumerators; any other value falls through to return L"". -/
def orderScopeToString (scope : Int) : String :=
  if scope = dxf_osc_composite then "Composite"
  else if scope = dxf_osc_regional then "Regional"
  else if scope = dxf_osc_aggregate then "Aggregate"
  else if scope = dxf_osc_order then "Order"
  else ""

/-- Enumerator values of dxf_order_side_t, numbered in declaration order
of the C enum. -/
def dxf_osd_undefined : Int := 0

def dxf_osd_buy : Int := 1

def dxf_osd_sell : Int := 2

/-- orderSideToString (src/main.cpp lines 107-118): a switch over the
three enumerators; any other value falls through to return L"". -/
def orderSideToString (side : Int) : String :=
  if side = dxf_osd_undefined then "Undefined"
  else if side = dxf_osd_buy then "Buy"
  else if side = dxf_osd_sell then "Sell"
  else ""

/-- The subscription states reachable through the program's operations:
construction with arbitrary transport outcomes, explicit Close,
destructor teardown, and event dispatch. -/
inductive Reachable : Subscription → Prop where
  | create (id connection : Nat) (symbol : String) (env : SetupEnv) (fresh : Handle) :
      Reachable (Subscription.create id connection symbol env fresh).1
  | close (s : Subscription) (env : CloseEnv) :
      Reachable s → Reachable (s.Close env).1
  | destruct (s : Subscription) (env : CloseEnv) :
      Reachable s → Reachable (s.destruct env).1
  | onEvent (s : Subscription) (eventType : Nat) :
      Reachable s → Reachable (s.onEvent eventType)

/-- Lifecycle state Active of the spec: setup fully succeeded and the
subscription has not yet been closed. -/
def Subscription.Active (s : Subscription) : Prop :=
  s.setupOk = true ∧ s.closed = false

/-- Lifecycle state Closed of the spec: the teardown body completed and
nulled the handle. -/
def Subscription.IsClosed (s : Subscription) : Prop :=
  s.closed = true

/-! ### Basic lemmas about the teardown body -/

/-- CloseImpl is a no-op (no state change, no facade call) when the
handle is null. -/
theorem CloseImpl_of_handle_none (s : Subscription) (env : CloseEnv)
    (hh : s.handle = none) : s.CloseImpl env = (s, []) := by
  simp [Subscription.CloseImpl, hh]

/-- CloseImpl is a no-op when the recorded error code is not
DXF_SUCCESS. -/
theorem CloseImpl_of_failure (s : Subscription) (env : CloseEnv)
    (he : s.errorCode ≠ ERRORCODE.success) : s.CloseImpl env = (s, []) := by
  simp [Subscription.CloseImpl, he]

/-- facadeCalls distributes over trace concatenation. -/
theorem facadeCalls_append (a b : List Event) :
    facadeCalls (a ++ b) = facadeCalls a ++ facadeCalls b := by
  simp [facadeCalls]

/-- The locked Close produces the same facade calls as the teardown body
it wraps. -/
theorem facadeCalls_Close (s : Subscription) (env : CloseEnv) :
    facadeCalls (s.Close env).2 = facadeCalls (s.CloseImpl env).2 := by
  simp [Subscription.Close, facadeCalls]

/-- Once the handle is null, any sequence of further Close calls leaves
the state unchanged and performs no facade call. -/
theorem closeSeq_of_handle_none (s : Subscription) (envs : List CloseEnv)
    (hh : s.handle = none) :
    (closeSeq s envs).1 = s ∧ facadeCalls (closeSeq s envs).2 = [] := by
  induction envs with
  | nil => simp [closeSeq, facadeCalls]
  | cons e rest ih =>
    have h1 : (s.Close e).1 = s := by
      simp [Subscription.Close, CloseImpl_of_handle_none s e hh]
    have h2 : facadeCalls (s.Close e).2 = [] := by
      rw [facadeCalls_Close, CloseImpl_of_handle_none s e hh]
      simp [facadeCalls]
    constructor
    · simp only [closeSeq, h1, ih.1]
    · simp only [closeSeq]
      rw [facadeCalls_append, h2, h1, ih.2]
      simp

/-! ### Claim C1 -/

/-- Claim C1: a Subscription with a live handle and errorCode DXF_SUCCESS
(the state reached by a fully successful setup), on which close() is
invoked one or more times and the first close's three transport calls
succeed, performs removeSymbol, detachListener and
closeSubscriptionHandle exactly once each over the whole call sequence;
the final state equals the state after the first close, with a null
handle, and every subsequent close contributes no facade call. -/
theorem c1_idempotent_close (s : Subscription) (h : Handle) (rest : List CloseEnv)
    (hh : s.handle = some h) (he : s.errorCode = ERRORCODE.success) :
    (closeSeq s (CloseEnv.mk true true true :: rest)).1 =
      (s.Close (CloseEnv.mk true true true)).1 ∧
    (closeSeq s (CloseEnv.mk true true true :: rest)).1.handle = none ∧
    (closeSeq s (CloseEnv.mk true true true :: rest)).1.errorCode = ERRORCODE.success ∧
    facadeCalls (closeSeq s (CloseEnv.mk true true true :: rest)).2 =
      [FacadeCall.removeSymbol s.symbol,
       FacadeCall.detachListener (getListener s.id),
       FacadeCall.closeSubscriptionHandle] := by
  have hci : s.CloseImpl (CloseEnv.mk true true true) =
      ({ s with errorCode := ERRORCODE.success, handle := none, closed := true },
       [.facade (.removeSymbol s.symbol),
        .facade (.detachListener (getListener s.id)),
        .facade .closeSubscriptionHandle]) := by
    simp [Subscription.CloseImpl, hh, he]
  have hc1 : (s.Close (CloseEnv.mk true true true)).1.handle = none := by
    simp [Subscription.Close, hci]
  obtain ⟨hs, htr⟩ :=
    closeSeq_of_handle_none (s.Close (CloseEnv.mk true true true)).1 rest hc1
  have hfc : facadeCalls (s.Close (CloseEnv.mk true true true)).2 =
      [FacadeCall.removeSymbol s.symbol,
       FacadeCall.detachListener (getListener s.id),
       FacadeCall.closeSubscriptionHandle] := by
    rw [facadeCalls_Close, hci]
    simp [facadeCalls]
  refine ⟨?_, ?_, ?_, ?_⟩
  · simp only [closeSeq, hs]
  · simp only [closeSeq, hs, hc1]
  · simp only [closeSeq, hs]
    simp [Subscription.Close, hci]
  · simp only [closeSeq]
    rw [facadeCalls_append, hfc, htr]
    simp

/-- Witness for C1 at a concrete subscription and two close calls. -/
theorem c1_idempotent_close_witness :
    (Subscription.create 1 0 "ETH/USD" (SetupEnv.mk true true true) 7).1.handle = some 7 ∧
    (Subscription.create 1 0 "ETH/USD" (SetupEnv.mk true true true) 7).1.errorCode =
      ERRORCODE.success ∧
    (closeSeq (Subscription.create 1 0 "ETH/USD" (SetupEnv.mk true true true) 7).1
      (CloseEnv.mk true true true :: [CloseEnv.mk true true true])).1.handle = none ∧
    facadeCalls (closeSeq (Subscription.create 1 0 "ETH/USD" (SetupEnv.mk true true true) 7).1
      (CloseEnv.mk true true true :: [CloseEnv.mk true true true])).2 =
      [FacadeCall.removeSymbol "ETH/USD", FacadeCall.detachListener (getListener 1),
       FacadeCall.closeSubscriptionHandle] :=
  ⟨rfl, rfl,
   (c1_idempotent_close (Subscription.create 1 0 "ETH/USD" (SetupEnv.mk true true true) 7).1
      7 [CloseEnv.mk true true true] rfl rfl).2.1,
   (c1_idempotent_close (Subscription.create 1 0 "ETH/USD" (SetupEnv.mk true true true) 7).1
      7 [CloseEnv.mk true true true] rfl rfl).2.2.2⟩

/-! ### Claim C2 -/

/-- Counterexample to C2 as stated: after a setup in which handle
allocation succeeded but attaching the listener failed, the handle is
non-null, yet close() releases nothing: the handle stays non-null and no
facade call is made (the teardown guard requires errorCode ==
DXF_SUCCESS, which a failed setup never satisfies). -/
theorem c2_counterexample :
    (Subscription.create 1 0 "ETH/USD" (SetupEnv.mk true false true) 7).1.handle = some 7 ∧
    ((Subscription.create 1 0 "ETH/USD" (SetupEnv.mk true false true) 7).1.Close
        (CloseEnv.mk true true true)).1.handle = some 7 ∧
    facadeCalls ((Subscription.create 1 0 "ETH/USD" (SetupEnv.mk true false true) 7).1.Close
        (CloseEnv.mk true true true)).2 = [] :=
  ⟨rfl, rfl, rfl⟩

/-- Amended C2: a Subscription whose setup aborted partway (errorCode
records the failure) is safely closable, but close() performs no
teardown step at all — in particular a non-null handle from the
successful allocation step is never released. -/
theorem c2_failed_setup_close (s : Subscription) (env : CloseEnv)
    (he : s.errorCode = ERRORCODE.failure) :
    (s.Close env).1 = s ∧ facadeCalls (s.Close env).2 = [] ∧
    s.destruct env = (s, []) := by
  have h0 : s.CloseImpl env = (s, []) :=
    CloseImpl_of_failure s env (by simp [he])
  refine ⟨by simp [Subscription.Close, h0], ?_, by simp [Subscription.destruct, h0]⟩
  rw [facadeCalls_Close, h0]
  simp [facadeCalls]

/-- Witness for the amended C2 at a concrete failed setup. -/
theorem c2_failed_setup_close_witness :
    (Subscription.create 1 0 "ETH/USD" (SetupEnv.mk true false true) 7).1.errorCode =
      ERRORCODE.failure ∧
    ((Subscription.create 1 0 "ETH/USD" (SetupEnv.mk true false true) 7).1.Close
        (CloseEnv.mk true true true)).1 =
      (Subscription.create 1 0 "ETH/USD" (SetupEnv.mk true false true) 7).1 :=
  ⟨rfl,
   (c2_failed_setup_close (Subscription.create 1 0 "ETH/USD" (SetupEnv.mk true false true) 7).1
      (CloseEnv.mk true true true) rfl).1⟩

/-! ### Claim C3 -/

/-- Counterexample to C3 as stated: starting from an Active subscription,
a close whose detach-listener step fails leaves errorCode at DXF_SUCCESS
(the source stores that step's result in a local variable, never in the
error state), and the next close retries the teardown from the
remove-symbol step. -/
theorem c3_counterexample :
    (((Subscription.create 1 0 "ETH/USD" (SetupEnv.mk true true true) 7).1.Close
        (CloseEnv.mk true false true)).1.errorCode = ERRORCODE.success) ∧
    (((Subscription.create 1 0 "ETH/USD" (SetupEnv.mk true true true) 7).1.Close
        (CloseEnv.mk true false true)).1.handle = some 7) ∧
    FacadeCall.removeSymbol "ETH/USD" ∈
      facadeCalls ((((Subscription.create 1 0 "ETH/USD" (SetupEnv.mk true true true) 7).1.Close
        (CloseEnv.mk true false true)).1.Close (CloseEnv.mk true true true)).2) := by
  refine ⟨rfl, rfl, ?_⟩
  decide

/-- Amended C3, per failing teardown step, from any state with a live
handle and errorCode DXF_SUCCESS: (a) if remove-symbol fails, teardown
aborts, the failure is recorded, the handle stays attached, and every
later close is a no-op; (b) if detach-listener fails, teardown aborts
before closing the handle and the handle stays attached, but the failure
is NOT recorded (errorCode keeps DXF_SUCCESS, the state is unchanged),
so any later close retries, beginning again with remove-symbol; (c) if
close-handle fails, the failure is recorded but the handle is
nonetheless set to null. -/
theorem c3_teardown_failure (s : Subscription) (h : Handle)
    (hh : s.handle = some h) (he : s.errorCode = ERRORCODE.success) :
    (∀ env : CloseEnv, env.removeOk = false →
      (s.CloseImpl env).1.errorCode = ERRORCODE.failure ∧
      (s.CloseImpl env).1.handle = some h ∧
      ∀ env' : CloseEnv, (s.CloseImpl env).1.CloseImpl env' = ((s.CloseImpl env).1, [])) ∧
    (∀ env : CloseEnv, env.removeOk = true → env.detachOk = false →
      (s.CloseImpl env).1 = s ∧
      ∀ env' : CloseEnv,
        (facadeCalls ((s.CloseImpl env).1.CloseImpl env').2).head? =
          some (FacadeCall.removeSymbol s.symbol)) ∧
    (∀ env : CloseEnv, env.removeOk = true → env.detachOk = true → env.closeOk = false →
      (s.CloseImpl env).1.errorCode = ERRORCODE.failure ∧
      (s.CloseImpl env).1.handle = none) := by
  refine ⟨?_, ?_, ?_⟩
  · intro env hr
    have hc : s.CloseImpl env =
        ({ s with errorCode := ERRORCODE.failure }, [.facade (.removeSymbol s.symbol)]) := by
      simp [Subscription.CloseImpl, hh, he, hr]
    refine ⟨by simp [hc], by simp [hc, hh], ?_⟩
    intro env'
    exact CloseImpl_of_failure _ env' (by simp [hc])
  · intro env hr hd
    have hc : s.CloseImpl env =
        (s, [.facade (.removeSymbol s.symbol),
             .facade (.detachListener (getListener s.id))]) := by
      simp [Subscription.CloseImpl, hh, he, hr, hd]
    have h1 : (s.CloseImpl env).1 = s := by simp [hc]
    refine ⟨h1, ?_⟩
    intro env'
    rw [h1]
    rcases env' with ⟨r, d, c⟩
    cases r <;> cases d <;> cases c <;>
      simp [Subscription.CloseImpl, hh, he, facadeCalls]
  · intro env hr hd hc0
    have hc : s.CloseImpl env =
        ({ s with errorCode := ERRORCODE.failure, handle := none, closed := true },
         [.facade (.removeSymbol s.symbol),
          .facade (.detachListener (getListener s.id)),
          .facade .closeSubscriptionHandle]) := by
      simp [Subscription.CloseImpl, hh, he, hr, hd, hc0]
    exact ⟨by simp [hc], by simp [hc]⟩

/-- Witness for the amended C3 at a concrete Active subscription. -/
theorem c3_teardown_failure_witness :
    (Subscription.create 1 0 "ETH/USD" (SetupEnv.mk true true true) 7).1.handle = some 7 ∧
    (Subscription.create 1 0 "ETH/USD" (SetupEnv.mk true true true) 7).1.errorCode =
      ERRORCODE.success ∧
    ((Subscription.create 1 0 "ETH/USD" (SetupEnv.mk true true true) 7).1.CloseImpl
        (CloseEnv.mk false true true)).1.errorCode = ERRORCODE.failure :=
  ⟨rfl, rfl,
   ((c3_teardown_failure (Subscription.create 1 0 "ETH/USD" (SetupEnv.mk true true true) 7).1
      7 rfl rfl).1 (CloseEnv.mk false true true) rfl).1⟩

/-! ### Claim C4 -/

/-- Every event the teardown body emits is a facade call: CloseImpl
itself performs no lock operation. -/
theorem CloseImpl_trace_facade (s : Subscription) (env : CloseEnv) (e : Event)
    (hme : e ∈ (s.CloseImpl env).2) : ∃ c, e = Event.facade c := by
  unfold Subscription.CloseImpl at hme
  split at hme
  · split at hme
    · simp only [List.mem_singleton] at hme
      exact ⟨_, hme⟩
    · split at hme
      · simp only [List.mem_cons, List.not_mem_nil, or_false] at hme
        rcases hme with rfl | rfl
        · exact ⟨_, rfl⟩
        · exact ⟨_, rfl⟩
      · simp only [List.mem_cons, List.not_mem_nil, or_false] at hme
        rcases hme with rfl | rfl | rfl
        · exact ⟨_, rfl⟩
        · exact ⟨_, rfl⟩
        · exact ⟨_, rfl⟩
  · simp at hme

/-- Counterexample to C4 as stated: on the same Active subscription and
the same transport outcomes, the explicit close path acquires the
per-subscription lock but the destructor path does not — the destructor
(src/main.cpp line 263) calls CloseImpl() directly, outside any lock. -/
theorem c4_counterexample :
    Event.lockAcquire ∈ ((Subscription.create 1 0 "ETH/USD" (SetupEnv.mk true true true) 7).1.Close
        (CloseEnv.mk true true true)).2 ∧
    Event.lockAcquire ∉ ((Subscription.create 1 0 "ETH/USD" (SetupEnv.mk true true true) 7).1.destruct
        (CloseEnv.mk true true true)).2 := by
  decide

/-- Amended C4: the explicit close path and the destructor path (the
latter also being the registry-release path, since releasing the
registry runs each entry's destructor) execute the identical teardown
body CloseImpl, reaching the same state and making the same facade
calls; but only the explicit close path wraps the body in the
per-subscription lock — the destructor runs it without acquiring the
lock. -/
theorem c4_teardown_paths (s : Subscription) (env : CloseEnv) :
    (s.Close env).1 = (s.CloseImpl env).1 ∧
    s.destruct env = s.CloseImpl env ∧
    (s.Close env).2 = Event.lockAcquire :: ((s.CloseImpl env).2 ++ [Event.lockRelease]) ∧
    facadeCalls (s.Close env).2 = facadeCalls (s.destruct env).2 ∧
    Event.lockAcquire ∉ (s.destruct env).2 := by
  refine ⟨rfl, rfl, rfl, facadeCalls_Close s env, ?_⟩
  intro hmem
  obtain ⟨c, hc⟩ := CloseImpl_trace_facade s env Event.lockAcquire hmem
  exact Event.noConfusion hc

/-- Witness for the amended C4 at a concrete subscription. -/
theorem c4_teardown_paths_witness :
    Event.lockAcquire ∉ ((Subscription.create 1 0 "ETH/USD" (SetupEnv.mk true true true) 7).1.destruct
        (CloseEnv.mk true true true)).2 :=
  (c4_teardown_paths (Subscription.create 1 0 "ETH/USD" (SetupEnv.mk true true true) 7).1
    (CloseEnv.mk true true true)).2.2.2.2

/-! ### Claim C5 -/

/-- Claim C5: fail-fast setup.  If handle allocation fails, the
constructor performs no further facade call (neither attach nor
add-symbol appears in the trace) and errorCode records the failure; if
allocation succeeds and attaching the listener fails, the add-symbol
step is never executed and errorCode records step 2's failure. -/
theorem c5_fail_fast_setup (id conn : Nat) (symbol : String) (env : SetupEnv)
    (fresh : Handle) :
    (env.createOk = false →
      (Subscription.create id conn symbol env fresh).2 =
        [Event.facade FacadeCall.createSubscription] ∧
      (Subscription.create id conn symbol env fresh).1.errorCode = ERRORCODE.failure) ∧
    (env.createOk = true → env.attachOk = false →
      (Subscription.create id conn symbol env fresh).2 =
        [Event.facade FacadeCall.createSubscription,
         Event.facade (FacadeCall.attachListener (getListener id) id)] ∧
      (Subscription.create id conn symbol env fresh).1.errorCode = ERRORCODE.failure) := by
  constructor
  · intro hc
    simp [Subscription.create, hc]
  · intro hc ha
    simp [Subscription.create, hc, ha]

/-- Witness for C5: a setup whose listener-attach step fails stops after
the attach call with errorCode DXF_FAILURE. -/
theorem c5_fail_fast_setup_witness :
    ((SetupEnv.mk true false true).createOk = true) ∧
    ((SetupEnv.mk true false true).attachOk = false) ∧
    (Subscription.create 1 0 "ETH/USD" (SetupEnv.mk true false true) 7).2 =
      [Event.facade FacadeCall.createSubscription,
       Event.facade (FacadeCall.attachListener (getListener 1) 1)] :=
  ⟨rfl, rfl,
   ((c5_fail_fast_setup 1 0 "ETH/USD" (SetupEnv.mk true false true) 7).2 rfl rfl).1⟩

/-! ### Claim C7 -/

/-- Claim C7: processLastError distinguishes exactly three disjoint
outcomes, characterised by mutually exclusive and exhaustive conditions
on the transport's reply: (a) the query succeeds and the stored code is
dx_ec_success — the no-error message; (b) the query succeeds with a
different stored code — that code and its description are surfaced; (c)
the query itself fails — the error-subsystem-unavailable message. -/
theorem c7_error_reporter_trichotomy (queryOk : Bool) (code : Int) (desc : String) :
    (processLastError queryOk code desc = LastErrorOutcome.noError ↔
      (queryOk = true ∧ code = dx_ec_success)) ∧
    (processLastError queryOk code desc = LastErrorOutcome.storedError code desc ↔
      (queryOk = true ∧ code ≠ dx_ec_success)) ∧
    (processLastError queryOk code desc = LastErrorOutcome.subsystemUnavailable ↔
      queryOk = false) := by
  cases queryOk <;> by_cases hc : code = dx_ec_success <;>
    simp [processLastError, hc]

/-- Witness for C7 at concrete inputs, one per outcome. -/
theorem c7_error_reporter_trichotomy_witness :
    processLastError true 0 "" = LastErrorOutcome.noError ∧
    processLastError true 2 "d" = LastErrorOutcome.storedError 2 "d" ∧
    processLastError false 0 "" = LastErrorOutcome.subsystemUnavailable :=
  ⟨(c7_error_reporter_trichotomy true 0 "").1.mpr ⟨rfl, rfl⟩,
   (c7_error_reporter_trichotomy true 2 "d").2.1.mpr ⟨rfl, by decide⟩,
   (c7_error_reporter_trichotomy false 0 "").2.2.mpr rfl⟩

/-! ### Claim C9 -/

/-- Counterexample to C9 as stated: a value outside the defined
enumerators is formatted as the empty string, not as an "unknown"
textual form. -/
theorem c9_counterexample :
    orderScopeToString 42 = "" ∧ orderSideToString 42 = "" :=
  ⟨rfl, rfl⟩

/-- Amended C9: both formatters are total — every input, including values
outside the defined enumerators, yields one of the enumerator labels or
the empty string — and every malformed value maps to the empty string
(the switch's fall-through), not to an "unknown" label. -/
theorem c9_enum_formatting (scope side : Int) :
    (scope ≠ dxf_osc_composite → scope ≠ dxf_osc_regional → scope ≠ dxf_osc_aggregate →
      scope ≠ dxf_osc_order → orderScopeToString scope = "") ∧
    (orderScopeToString scope = "Composite" ∨ orderScopeToString scope = "Regional" ∨
      orderScopeToString scope = "Aggregate" ∨ orderScopeToString scope = "Order" ∨
      orderScopeToString scope = "") ∧
    (side ≠ dxf_osd_undefined → side ≠ dxf_osd_buy → side ≠ dxf_osd_sell →
      orderSideToString side = "") ∧
    (orderSideToString side = "Undefined" ∨ orderSideToString side = "Buy" ∨
      orderSideToString side = "Sell" ∨ orderSideToString side = "") := by
  refine ⟨?_, ?_, ?_, ?_⟩
  · intro h1 h2 h3 h4
    simp [orderScopeToString, h1, h2, h3, h4]
  · unfold orderScopeToString
    repeat' split
    all_goals simp
  · intro h1 h2 h3
    simp [orderSideToString, h1, h2, h3]
  · unfold orderSideToString
    repeat' split
    all_goals simp

/-- Witness for the amended C9 at the malformed value 42. -/
theorem c9_enum_formatting_witness :
    ((42 : Int) ≠ dxf_osc_composite) ∧ orderScopeToString 42 = "" :=
  ⟨by decide,
   (c9_enum_formatting 42 42).1 (by decide) (by decide) (by decide) (by decide)⟩

/-! ### Claim C10 -/

/-- The id member of a freshly constructed subscription is the
instantiation id. -/
theorem create_id (id conn : Nat) (symbol : String) (env : SetupEnv) (fresh : Handle) :
    (Subscription.create id conn symbol env fresh).1.id = id := by
  unfold Subscription.create
  split
  · rfl
  · split
    · rfl
    · rfl

/-- Every detach call the teardown body makes passes the listener
pointer getListener(id) of the subscription's own instantiation id. -/
theorem CloseImpl_detach_listener (s : Subscription) (env : CloseEnv) (l : Nat)
    (hmem : FacadeCall.detachListener l ∈ facadeCalls (s.CloseImpl env).2) :
    l = getListener s.id := by
  unfold Subscription.CloseImpl at hmem
  split at hmem
  · split at hmem
    · simp [facadeCalls] at hmem
    · split at hmem
      · simp [facadeCalls] at hmem
        exact hmem
      · simp [facadeCalls] at hmem
        exact hmem
  · simp [facadeCalls] at hmem

/-- Claim C10: listener identity round-trip.  Whenever setup reaches the
attach step (handle allocation succeeded), the listener registered is
getListener(id) with the subscription's identity token id as user
context; any detach the teardown performs passes that same pointer
getListener(id); and distinct instantiation ids yield distinct listener
pointers. -/
theorem c10_listener_roundtrip (id conn : Nat) (symbol : String) (envS : SetupEnv)
    (fresh : Handle) (env : CloseEnv) :
    (envS.createOk = true →
      Event.facade (FacadeCall.attachListener (getListener id) id) ∈
        (Subscription.create id conn symbol envS fresh).2) ∧
    (∀ l, FacadeCall.detachListener l ∈
        facadeCalls ((Subscription.create id conn symbol envS fresh).1.CloseImpl env).2 →
      l = getListener id) ∧
    (∀ idB : Nat, id ≠ idB → getListener id ≠ getListener idB) := by
  refine ⟨?_, ?_, ?_⟩
  · intro hc
    unfold Subscription.create
    simp [hc]
    split
    · simp
    · simp
  · intro l hmem
    have h := CloseImpl_detach_listener _ env l hmem
    rwa [create_id] at h
  · intro idB hne
    simpa [getListener] using hne

/-- Witness for C10 at a concrete subscription and close. -/
theorem c10_listener_roundtrip_witness :
    ((SetupEnv.mk true true true).createOk = true) ∧
    Event.facade (FacadeCall.attachListener (getListener 1) 1) ∈
      (Subscription.create 1 0 "ETH/USD" (SetupEnv.mk true true true) 7).2 :=
  ⟨rfl,
   (c10_listener_roundtrip 1 0 "ETH/USD" (SetupEnv.mk true true true) 7
      (CloseEnv.mk true true true)).1 rfl⟩

/-! ### Claim C6 -/

/-- The field-level invariant maintained by every operation: a closed
subscription has a null handle, and a subscription whose setup fully
succeeded and that is not yet closed has a live handle. -/
def SubInv (s : Subscription) : Prop :=
  (s.closed = true → s.handle = none) ∧
  (s.setupOk = true → s.closed = false → s.handle ≠ none)

/-- The teardown body preserves the field-level invariant. -/
theorem CloseImpl_inv (s : Subscription) (env : CloseEnv) (h : SubInv s) :
    SubInv (s.CloseImpl env).1 := by
  unfold Subscription.CloseImpl
  split
  · split
    · exact ⟨h.1, h.2⟩
    · split
      · exact h
      · exact ⟨fun _ => rfl, fun hs hc => Bool.noConfusion hc⟩
  · exact h

/-- Every reachable subscription state satisfies the field-level
invariant. -/
theorem reachable_inv (s : Subscription) (hr : Reachable s) : SubInv s := by
  induction hr with
  | create id conn symbol env fresh =>
    unfold Subscription.create
    split
    · exact ⟨fun hc => Bool.noConfusion hc, fun hs _ => Bool.noConfusion hs⟩
    · split
      · exact ⟨fun hc => Bool.noConfusion hc, fun hs _ => Bool.noConfusion hs⟩
      · exact ⟨fun hc => Bool.noConfusion hc, fun _ _ => by simp⟩
  | close s env hr2 ih => exact CloseImpl_inv s env ih
  | destruct s env hr2 ih => exact CloseImpl_inv s env ih
  | onEvent s k hr2 ih => exact ih

/-- Counterexample to C6 as stated: a reachable subscription whose setup
aborted at the listener-attach step has a non-null handle but is not
Active (setup did not fully succeed), so "handle non-null iff Active"
fails in the right-to-left reading of non-null. -/
theorem c6_counterexample :
    Reachable (Subscription.create 1 0 "ETH/USD" (SetupEnv.mk true false true) 7).1 ∧
    (Subscription.create 1 0 "ETH/USD" (SetupEnv.mk true false true) 7).1.handle ≠ none ∧
    ¬ (Subscription.create 1 0 "ETH/USD" (SetupEnv.mk true false true) 7).1.Active :=
  ⟨Reachable.create 1 0 "ETH/USD" (SetupEnv.mk true false true) 7,
   by decide,
   fun ha => Bool.noConfusion ha.1⟩

/-- Amended C6: on every reachable state, Active (setup fully succeeded,
not yet closed) implies the handle is non-null — but not conversely,
since a partially-initialized subscription also holds a non-null handle —
and Closed is terminal: a closed subscription has a null handle and every
create/close/dispatch operation leaves it completely unchanged. -/
theorem c6_lifecycle_invariant (s : Subscription) (hr : Reachable s) :
    (s.Active → s.handle ≠ none) ∧
    (s.IsClosed →
      s.handle = none ∧
      ∀ env : CloseEnv, (s.Close env).1 = s ∧ (s.destruct env).1 = s ∧
        ∀ k : Nat, s.onEvent k = s) := by
  have hinv := reachable_inv s hr
  refine ⟨fun ha => hinv.2 ha.1 ha.2, fun hc => ?_⟩
  have hh : s.handle = none := hinv.1 hc
  refine ⟨hh, fun env => ⟨?_, ?_, fun k => rfl⟩⟩
  · simp [Subscription.Close, CloseImpl_of_handle_none s env hh]
  · simp [Subscription.destruct, CloseImpl_of_handle_none s env hh]

/-- Witness for the amended C6: a fully-set-up subscription is Active
with a live handle, and after a successful close it is Closed, frozen
under further operations. -/
theorem c6_lifecycle_invariant_witness :
    (Subscription.create 1 0 "ETH/USD" (SetupEnv.mk true true true) 7).1.Active ∧
    (Subscription.create 1 0 "ETH/USD" (SetupEnv.mk true true true) 7).1.handle ≠ none :=
  ⟨⟨rfl, rfl⟩,
   (c6_lifecycle_invariant (Subscription.create 1 0 "ETH/USD" (SetupEnv.mk true true true) 7).1
      (Reachable.create 1 0 "ETH/USD" (SetupEnv.mk true true true) 7)).1 ⟨rfl, rfl⟩⟩

/-! ### Claim C8 -/

/-- Registry release tears down as many entries as the registry holds. -/
theorem closeAll_length (subs : List Subscription) (envOf : Nat → CloseEnv) :
    (closeAll subs envOf).1.length = subs.length := by
  induction subs generalizing envOf with
  | nil => rfl
  | cons s rest ih => simp [closeAll, ih]

/-- After registry release, entry i's state is exactly the result of its
own destructor teardown under its own transport outcomes: the outcome of
every other entry's teardown, failing or not, is irrelevant to it. -/
theorem closeAll_getElem (subs : List Subscription) (envOf : Nat → CloseEnv) (i : Nat) :
    (closeAll subs envOf).1[i]? =
      (subs[i]?).map (fun s => (s.destruct (envOf i)).1) := by
  induction subs generalizing envOf i with
  | nil => simp [closeAll]
  | cons s rest ih =>
    cases i with
    | zero => simp [closeAll]
    | succ n => simp [closeAll, ih]

/-- Claim C8: releasing the registry applies the teardown to every entry
in insertion order (head first, then the rest, traces concatenated in
order), a failure in one entry's teardown never prevents or alters the
teardown attempt of any other entry (entry i's final state depends only
on its own state and its own transport outcomes), and closing one entry
by position leaves every other entry's state and handle unchanged. -/
theorem c8_registry_teardown (subs : List Subscription) (envOf : Nat → CloseEnv) :
    (closeAll subs envOf).1.length = subs.length ∧
    (∀ i : Nat, (closeAll subs envOf).1[i]? =
      (subs[i]?).map (fun s => (s.destruct (envOf i)).1)) ∧
    (∀ (s : Subscription) (rest : List Subscription) (envOf2 : Nat → CloseEnv),
      closeAll (s :: rest) envOf2 =
        ((s.destruct (envOf2 0)).1 :: (closeAll rest (fun n => envOf2 (n + 1))).1,
         (s.destruct (envOf2 0)).2 ++ (closeAll rest (fun n => envOf2 (n + 1))).2)) ∧
    (∀ (i : Nat) (env : CloseEnv) (j : Nat), j ≠ i →
      (closeAt subs i env).1[j]? = subs[j]?) := by
  refine ⟨closeAll_length subs envOf, fun i => closeAll_getElem subs envOf i,
    fun s rest envOf2 => rfl, fun i env j hj => ?_⟩
  unfold closeAt
  split
  · exact List.getElem?_set_ne (fun h => hj h.symm)
  · rfl

/-- Witness for C8: a registry of two live subscriptions where the first
entry's teardown fails at its very first step; the second entry is
nevertheless torn down, and closing entry 0 by position leaves entry 1
untouched. -/
theorem c8_registry_teardown_witness :
    ((1 : Nat) ≠ (0 : Nat)) ∧
    (closeAll
        [(Subscription.create 1 0 "ETH/USD" (SetupEnv.mk true true true) 7).1,
         (Subscription.create 2 0 "BTC/USD" (SetupEnv.mk true true true) 8).1]
        (fun n => if n = 0 then CloseEnv.mk false true true else CloseEnv.mk true true true)).1[1]? =
      (([(Subscription.create 1 0 "ETH/USD" (SetupEnv.mk true true true) 7).1,
         (Subscription.create 2 0 "BTC/USD" (SetupEnv.mk true true true) 8).1][1]?).map
        (fun s => (s.destruct ((fun n : Nat =>
          if n = 0 then CloseEnv.mk false true true else CloseEnv.mk true true true) 1)).1)) ∧
    (closeAt
        [(Subscription.create 1 0 "ETH/USD" (SetupEnv.mk true true true) 7).1,
         (Subscription.create 2 0 "BTC/USD" (SetupEnv.mk true true true) 8).1]
        0 (CloseEnv.mk true true true)).1[1]? =
      [(Subscription.create 1 0 "ETH/USD" (SetupEnv.mk true true true) 7).1,
       (Subscription.create 2 0 "BTC/USD" (SetupEnv.mk true true true) 8).1][1]? :=
  ⟨by decide,
   (c8_registry_teardown
      [(Subscription.create 1 0 "ETH/USD" (SetupEnv.mk true true true) 7).1,
       (Subscription.create 2 0 "BTC/USD" (SetupEnv.mk true true true) 8).1]
      (fun n => if n = 0 then CloseEnv.mk false true true else CloseEnv.mk true true true)).2.1 1,
   (c8_registry_teardown
      [(Subscription.create 1 0 "ETH/USD" (SetupEnv.mk true true true) 7).1,
       (Subscription.create 2 0 "BTC/USD" (SetupEnv.mk true true true) 8).1]
      (fun n => if n = 0 then CloseEnv.mk false true true else CloseEnv.mk true true true)).2.2.2
      0 (CloseEnv.mk true true true) 1 (by decide)⟩
